import Mathlib

/-!
Verification development for the WIRC+Pol data reduction pipeline
(`wirc_drp/wirc_object.py` and `wirc_drp/utils/calibration.py`).

Shallow embedding conventions:
* Detector pixel values (numpy float64) are embedded as exact rationals `ℚ`.
  NaN-aware numpy reductions (`nanmean`, `nanmedian`, `nansum`) that have to
  distinguish NaN are embedded over `Option ℚ` with `none` playing the role
  of NaN; code paths that never meet a NaN use plain `ℚ`.
* A 2-dimensional image of known size `h × w` is a function `Nat → Nat → ℚ`
  (row, column); the detector size, hard-coded to 2048 in the source, is kept
  as explicit parameters `h w` so that concrete instances stay computable.
* File I/O (`astropy.io.fits`) is embedded as an environment mapping file
  names to their primary-HDU contents.
-/

section WircDrp

attribute [local semireducible] Rat.add Rat.sub Rat.mul Rat.inv Rat.ofScientific

/-- Pixel frames: row/column indexed rational images. -/
abbrev QFrame : Type := Nat → Nat → ℚ

/-- NaN-aware frames: `none` encodes a NaN pixel. -/
abbrev OFrame : Type := Nat → Nat → Option ℚ

/-- numpy bool-to-float coercion used when a boolean mask is multiplied
into a float image (`image * ~mask`). -/
def boolToQ (b : Bool) : ℚ := if b then 1 else 0

/-- Ascending sort on rationals (the order used by numpy/scipy medians). -/
def sortQ (xs : List ℚ) : List ℚ := List.insertionSort (· ≤ ·) xs

/-- `np.median` of a flat list: middle element of the sorted list for odd
length, average of the two middle elements for even length; numpy returns
NaN for an empty input, which no embedded call site reaches, so `0` is
used as the (unreachable) default. -/
def npMedianList (xs : List ℚ) : ℚ :=
  let s := sortQ xs
  let n := xs.length
  if n = 0 then 0
  else if n % 2 = 1 then s.getD (n / 2) 0
  else (s.getD (n / 2 - 1) 0 + s.getD (n / 2) 0) / 2

/-- The rank-`⌊n/2⌋` order statistic: `scipy.ndimage.median_filter` computes
its window median as a rank filter at rank `size*size // 2`. -/
def rankMedian (xs : List ℚ) : ℚ := (sortQ xs).getD (xs.length / 2) 0

/-- `scipy.stats.mode`: the most frequent value; on ties scipy returns the
smallest such value. -/
def scipyMode (xs : List ℚ) : ℚ :=
  let m := (xs.map (fun v => xs.count v)).foldr max 0
  ((sortQ xs).find? (fun v => xs.count v = m)).getD 0

/-- `np.mean` of a flat list; the mean of an empty selection is NaN
(embedded as `none`), which numpy reports with a RuntimeWarning but no
exception. -/
def npMean (xs : List ℚ) : Option ℚ :=
  if xs.isEmpty then none else some (xs.sum / (xs.length : ℚ))

/-- Flatten an `h × w` frame to the row-major list of its pixels
(`axis = None` reductions in numpy operate on this list). -/
def pixelList (h w : Nat) (im : QFrame) : List ℚ :=
  (List.range h).flatMap (fun i => (List.range w).map (fun j => im i j))

/-- One iteration of `astropy.stats.sigma_clip` (cenfunc `median`, stdfunc
`std`, symmetric `sigma`): values already masked stay masked, and an
unmasked value `x` becomes masked when it lies strictly outside
`median ± sigma * std` of the currently unmasked values, expressed here
without square roots as `(x - median)^2 > sigma^2 * variance`. -/
def sigmaClipStep (sigma : ℚ) (xs : List ℚ) (mask : List Bool) : List Bool :=
  let vals := (xs.zip mask).filterMap (fun p => if p.2 then none else some p.1)
  if vals.length = 0 then mask
  else
    let n : ℚ := (vals.length : ℚ)
    let mu := vals.sum / n
    let med := npMedianList vals
    let var := (vals.map (fun v => (v - mu) ^ 2)).sum / n
    (xs.zip mask).map (fun p => p.2 || decide ((p.1 - med) ^ 2 > sigma ^ 2 * var))

/-- `astropy.stats.sigma_clip(data, sigma).mask` on a flat list of values:
the clipping iteration runs with the default `maxiters = 5`; once the mask
reaches a fixed point further iterations leave it unchanged, so running
exactly five steps agrees with astropy's early stopping. -/
def sigmaClipList (sigma : ℚ) (xs : List ℚ) : List Bool :=
  (sigmaClipStep sigma xs
    (sigmaClipStep sigma xs
      (sigmaClipStep sigma xs
        (sigmaClipStep sigma xs
          (sigmaClipStep sigma xs (xs.map (fun _ => false)))))))

/-- The sigma-clip mask of a frame, reshaped back to two dimensions. -/
def sigmaClipMaskFn (h w : Nat) (sigma : ℚ) (im : QFrame) : Nat → Nat → Bool :=
  fun i j => (sigmaClipList sigma (pixelList h w im)).getD (i * w + j) false

/-- Boundary handling of `scipy.ndimage.median_filter` in its default
`reflect` mode: an index one window short of the edge reflects about the
edge (`d c b a | a b c d`). -/
def reflectIdx (n : Nat) (i : Int) : Nat :=
  if i < 0 then (-1 - i).toNat
  else if (n : Int) ≤ i then (2 * (n : Int) - 1 - i).toNat
  else i.toNat

/-- The window of pixels that `scipy.ndimage.median_filter` with footprint
`size × size` gathers around `(i, j)` on an `h × w` frame: offsets run from
`-(size / 2)` over `size` consecutive indices, with reflected boundary. -/
def windowVals (h w size : Nat) (im : QFrame) (i j : Nat) : List ℚ :=
  (List.range size).flatMap (fun a =>
    (List.range size).map (fun b =>
      im (reflectIdx h ((i : Int) + (a : Int) - ((size / 2 : Nat) : Int)))
         (reflectIdx w ((j : Int) + (b : Int) - ((size / 2 : Nat) : Int)))))

/-- `scipy.ndimage.median_filter(im, size)` on an `h × w` frame. -/
def medianFilterFn (h w size : Nat) (im : QFrame) : QFrame :=
  fun i j => rankMedian (windowVals h w size im i j)

/-- `calibration.cleanBadPix(redux_science, bad_pixel_map, median_box)`:
non-positive pixels are added to the bad pixel map, a median filter of the
whole input is computed, and the output blends input and filter through the
boolean mask exactly as `redux_science*~bad + med_fil*bad` does. -/
def cleanBadPix (h w : Nat) (redux_science : QFrame)
    (bad_pixel_map : Nat → Nat → Bool) (median_box : Nat) : QFrame :=
  let bad : Nat → Nat → Bool :=
    fun i j => bad_pixel_map i j || decide (redux_science i j ≤ 0)
  let med_fil := medianFilterFn h w median_box redux_science
  fun i j =>
    redux_science i j * boolToQ (!bad i j) + med_fil i j * boolToQ (bad i j)

/-- C6: for every input image and boolean bad-pixel mask, `cleanBadPix`
keeps each pixel that is unflagged and strictly positive bit-for-bit, and
replaces each flagged or non-positive pixel by the value of the median
filter of the given window size computed over the whole input image. -/
theorem cleanBadPix_passthrough_or_medfilter
    (h w : Nat) (im : QFrame) (mask : Nat → Nat → Bool) (box : Nat)
    (i j : Nat) :
    cleanBadPix h w im mask box i j =
      if mask i j = false ∧ 0 < im i j then im i j
      else medianFilterFn h w box im i j := by
  unfold cleanBadPix
  by_cases hm : mask i j <;> by_cases hp : im i j ≤ 0
  · simp [hm, boolToQ]
  · simp [hm, boolToQ]
  · simp [hm, hp, boolToQ, not_lt.mpr hp]
  · simp [hm, hp, boolToQ, lt_of_not_le hp]

/-- Error values for Python failures reachable in the embedded code: a
`NameError` on the named, never-bound local variable. -/
inductive CalErr where
  | nameError (localVar : String)
deriving DecidableEq

/-- `calibration.masterDark`: the combined master dark, the per-pixel
`np.median` of the input dark stack. The detector size, hard-coded to
2048 × 2048 in the source, is the `h`/`w` parameter of the surrounding
definitions. -/
def masterDarkFrame (darks : List QFrame) : QFrame :=
  fun i j => npMedianList (darks.map (fun d => d i j))

/-- `calibration.masterDark`: the bad-pixel predicate
`bad_px = hot_px.mask | zero_px`, the union of the sigma-clip outliers of
the combined dark and the pixels whose combined value is exactly zero. -/
def masterDarkBadPx (h w : Nat) (darks : List QFrame) (sig_hot_pix : ℚ) :
    Nat → Nat → Bool :=
  fun i j =>
    sigmaClipMaskFn h w sig_hot_pix (masterDarkFrame darks) i j
      || decide (masterDarkFrame darks i j = 0)

/-- `calibration.masterDark(dark_list, sig_hot_pix)`: returns the combined
master dark and the encoded bad-pixel map
`np.array(bad_px, dtype=float)*2`. -/
def masterDark (h w : Nat) (darks : List QFrame) (sig_hot_pix : ℚ) :
    QFrame × QFrame :=
  (masterDarkFrame darks,
   fun i j => boolToQ (masterDarkBadPx h w darks sig_hot_pix i j) * 2)

/-- The C4 end-to-end scenario input: five darks of constant value 100
with the single pixel (1,1) set to 0, on a 3 × 3 detector. -/
def scenarioDarks : List QFrame :=
  List.replicate 5 (fun i j => if i = 1 ∧ j = 1 then 0 else 100)

/-- C4: `masterDark` combines by per-pixel median, and its bad-pixel map
is 2 exactly on the union of sigma-clip outliers of the combined frame and
pixels whose combined value is zero, 0 elsewhere; in the five-darks
scenario (constant 100 with one zero pixel) the combined frame has median
100 and the map flags exactly that one pixel with value 2. -/
theorem masterDark_median_and_badmap :
    (∀ h w darks sig i j,
      (masterDark h w darks sig).1 i j = npMedianList (darks.map (fun d => d i j))
      ∧ (masterDark h w darks sig).2 i j =
          (if sigmaClipMaskFn h w sig (masterDark h w darks sig).1 i j = true
              ∨ (masterDark h w darks sig).1 i j = 0 then 2 else 0))
    ∧ npMedianList (pixelList 3 3 (masterDark 3 3 scenarioDarks 5).1) = 100
    ∧ (List.range 3).map (fun i =>
        (List.range 3).map (fun j => (masterDark 3 3 scenarioDarks 5).2 i j))
        = [[0, 0, 0], [0, 2, 0], [0, 0, 0]] := by
  refine ⟨fun h w darks sig i j => ⟨rfl, ?_⟩, by decide, by decide⟩
  show boolToQ (masterDarkBadPx h w darks sig i j) * 2 = _
  unfold masterDarkBadPx
  by_cases h1 : sigmaClipMaskFn h w sig (masterDarkFrame darks) i j <;>
    by_cases h2 : masterDarkFrame darks i j = 0 <;>
      simp [h1, h2, boolToQ, masterDark]

/-- The exposure-time scaling factor computed in `calibration.masterFlat`
(lines 60–64): the master dark is scaled by `flat_exp_time/dark_exp_time`
when the exposure times differ (with a printed warning), by 1 otherwise. -/
def masterFlatScaleFactor (dark_exp_time flat_exp_time : ℚ) : ℚ :=
  if dark_exp_time ≠ flat_exp_time then flat_exp_time / dark_exp_time else 1

/-- The exposure-time scaling factor computed in the batch
`calibration.calibrate` (lines 246–250): `science_exp_time/dark_exp_time`
when the exposure times differ (with `warnings.warn`), 1 otherwise. -/
def calibrateScaleFactor (dark_exp_time science_exp_time : ℚ) : ℚ :=
  if dark_exp_time ≠ science_exp_time then science_exp_time / dark_exp_time else 1

/-- The exposure-time scaling factor computed in `wirc_data.calibrate`
(wirc_object.py lines 112–117): `EXPTIME/dark_exp_time` when the exposure
times differ (with a printed warning), 1 otherwise. -/
def wircDarkScaleFactor (dark_exp_time frame_exp_time : ℚ) : ℚ :=
  if dark_exp_time ≠ frame_exp_time then frame_exp_time / dark_exp_time else 1

/-- `calibration.masterFlat(flat_list, master_dark_fname, normalize,
sig_bad_pix, hotp_map_fname)`: the first flat is placed in the stack as
read; every later flat has the scaled master dark subtracted and is
normalized by its own mode or median; the stack is median-combined per
pixel, sigma-clipped for bad pixels, and re-normalized (by the median of
the unclipped pixels for `normalize = "median"`, by the mode of the
combined flat for `normalize = "mode"`); any other `normalize` value
leaves the Python local `norm_flat` unbound, a `NameError`. The returned
pair is (normalized flat, bad-pixel map), the map accumulating into
`hotp_map` when one is supplied. -/
def masterFlat (h w : Nat) (flats : List QFrame) (flat_exp_time dark_exp_time : ℚ)
    (master_dark : QFrame) (normalize : String) (sig_bad_pix : ℚ)
    (hotp_map : Option QFrame) : Except CalErr (QFrame × QFrame) :=
  let factor := masterFlatScaleFactor dark_exp_time flat_exp_time
  let foo : List QFrame :=
    match flats with
    | [] => []
    | first_flat :: rest =>
      first_flat ::
        rest.map (fun fl =>
          let d_sub : QFrame := fun i j => fl i j - factor * master_dark i j
          if normalize = "mode" then
            let m := scipyMode (pixelList h w d_sub)
            fun i j => d_sub i j / m
          else if normalize = "median" then
            let m := npMedianList (pixelList h w d_sub)
            fun i j => d_sub i j / m
          else d_sub)
  let flat : QFrame := fun i j => npMedianList (foo.map (fun fr => fr i j))
  let maskL := sigmaClipList sig_bad_pix (pixelList h w flat)
  let bad_px_mask : Nat → Nat → Bool := fun i j => maskL.getD (i * w + j) false
  let bp_map : QFrame :=
    match hotp_map with
    | some hp => fun i j => hp i j + boolToQ (bad_px_mask i j)
    | none => fun i j => boolToQ (bad_px_mask i j)
  if normalize = "median" then
    let denom := npMedianList
      (((pixelList h w flat).zip maskL).filterMap
        (fun p => if p.2 then none else some p.1))
    Except.ok ((fun i j => flat i j / denom), bp_map)
  else if normalize = "mode" then
    let denom := scipyMode (pixelList h w flat)
    Except.ok ((fun i j => flat i j / denom), bp_map)
  else Except.error (CalErr.nameError "norm_flat")

/-- Follows the spec text rather than the source, for comparison with
`masterFlat`: "for each flat frame, subtract the (exposure-scaled) master
dark, normalize by its own median or mode" — every frame of the list,
including the first, is dark-subtracted and normalized before the stack is
median-combined. All later steps are identical to `masterFlat`. -/
def masterFlatEveryFrameProcessed (h w : Nat) (flats : List QFrame)
    (flat_exp_time dark_exp_time : ℚ) (master_dark : QFrame) (normalize : String)
    (sig_bad_pix : ℚ) (hotp_map : Option QFrame) : Except CalErr (QFrame × QFrame) :=
  let factor := masterFlatScaleFactor dark_exp_time flat_exp_time
  let foo : List QFrame :=
    flats.map (fun fl =>
      let d_sub : QFrame := fun i j => fl i j - factor * master_dark i j
      if normalize = "mode" then
        let m := scipyMode (pixelList h w d_sub)
        fun i j => d_sub i j / m
      else if normalize = "median" then
        let m := npMedianList (pixelList h w d_sub)
        fun i j => d_sub i j / m
      else d_sub)
  let flat : QFrame := fun i j => npMedianList (foo.map (fun fr => fr i j))
  let maskL := sigmaClipList sig_bad_pix (pixelList h w flat)
  let bad_px_mask : Nat → Nat → Bool := fun i j => maskL.getD (i * w + j) false
  let bp_map : QFrame :=
    match hotp_map with
    | some hp => fun i j => hp i j + boolToQ (bad_px_mask i j)
    | none => fun i j => boolToQ (bad_px_mask i j)
  if normalize = "median" then
    let denom := npMedianList
      (((pixelList h w flat).zip maskL).filterMap
        (fun p => if p.2 then none else some p.1))
    Except.ok ((fun i j => flat i j / denom), bp_map)
  else if normalize = "mode" then
    let denom := scipyMode (pixelList h w flat)
    Except.ok ((fun i j => flat i j / denom), bp_map)
  else Except.error (CalErr.nameError "norm_flat")

/-- The C2 failing input: two identical 1 × 2 flats with pixel values
(3, 5) and a constant master dark of 1, equal exposure times. -/
def c2Flat : QFrame := fun _ j => if j = 0 then 3 else 5

/-- Constant master dark used in the C2 failing input. -/
def c2Dark : QFrame := fun _ _ => 1

/-- C2: `masterFlat` does NOT dark-subtract or normalize the first flat of
the list — it is placed in the stack as read — so on two identical flats
(3, 5) with dark 1 the normalized master flat is (11/15, 19/15), while
processing every frame as the spec states yields (2/3, 4/3). -/
theorem masterFlat_first_frame_not_processed :
    ((masterFlat 1 2 [c2Flat, c2Flat] 1 1 c2Dark "median" 3 none).toOption.map
        (fun p => (p.1 0 0, p.1 0 1))) = some (11/15, 19/15)
    ∧ ((masterFlatEveryFrameProcessed 1 2 [c2Flat, c2Flat] 1 1 c2Dark "median" 3
        none).toOption.map (fun p => (p.1 0 0, p.1 0 1))) = some (2/3, 4/3)
    ∧ ((11 : ℚ)/15, (19 : ℚ)/15) ≠ ((2 : ℚ)/3, (4 : ℚ)/3) := by
  refine ⟨by decide, by decide, by decide⟩

/-- C5: in all three dark-subtraction paths — `masterFlat`, the batch
`calibrate`, and `wirc_data.calibrate` — the dark is scaled by exactly
`frame_exptime / dark_exptime` when the exposure times differ, and by
exactly 1 when they are equal. -/
theorem exposure_scale_factor (d s : ℚ) :
    (d ≠ s →
      masterFlatScaleFactor d s = s / d ∧ calibrateScaleFactor d s = s / d
        ∧ wircDarkScaleFactor d s = s / d)
    ∧ (d = s →
      masterFlatScaleFactor d s = 1 ∧ calibrateScaleFactor d s = 1
        ∧ wircDarkScaleFactor d s = 1) := by
  constructor <;> intro h <;>
    simp [masterFlatScaleFactor, calibrateScaleFactor, wircDarkScaleFactor, h]

/-- Witness for C5 at dark exposure 2, frame exposure 4 (factor 4/2) and
at equal exposures 3, 3 (factor 1). -/
theorem exposure_scale_factor_witness :
    (masterFlatScaleFactor 2 4 = 4 / 2 ∧ calibrateScaleFactor 2 4 = 4 / 2
      ∧ wircDarkScaleFactor 2 4 = 4 / 2)
    ∧ (masterFlatScaleFactor 3 3 = 1 ∧ calibrateScaleFactor 3 3 = 1
      ∧ wircDarkScaleFactor 3 3 = 1) :=
  ⟨(exposure_scale_factor 2 4).1 (by decide), (exposure_scale_factor 3 3).2 rfl⟩

/-- An astropy FITS header, restricted to the parts the embedded code
touches: the `EXPTIME` card, the append-only `HISTORY` log, and the other
string-valued cards written by calibration (`DARK_FN`, `FLAT_FN`, `BKG_FN`,
`BP_FN`, `CLEAN_BP`). -/
structure FitsHeader where
  exptime : ℚ
  history : List String
  cards : List (String × String)
deriving DecidableEq

/-- `header['HISTORY'] = entry` appends to the ordered history log. -/
def FitsHeader.addHistory (hd : FitsHeader) (entry : String) : FitsHeader :=
  { hd with history := hd.history ++ [entry] }

/-- `header[key] = value` for a non-HISTORY card. -/
def FitsHeader.setCard (hd : FitsHeader) (key value : String) : FitsHeader :=
  { hd with cards := (key, value) :: hd.cards }

/-- The primary HDU of a FITS file as the embedded code reads it:
a data array and its `EXPTIME`. -/
structure FitsFile where
  data : QFrame
  exptime : ℚ

/-- The file system seen through `fits.open`: a map from file names to
their primary HDU. -/
abbrev FileEnv : Type := String → FitsFile

/-- The state of a `wirc_object.wirc_data` object, restricted to the
fields `calibrate` reads or writes. -/
structure wirc_data where
  full_image : QFrame
  header : FitsHeader
  calibrated : Bool
  bkg_subbed : Bool
  dark_fn : Option String
  flat_fn : Option String
  bkg_fn : Option String
  bp_fn : Option String

/-- Dark-subtraction step of `wirc_data.calibrate` (lines 104–127): when a
dark filename is set, the master dark scaled by `wircDarkScaleFactor` is
subtracted and the header records the operation; otherwise only a message
is printed. -/
def wirc_data.darkStep (env : FileEnv) (s : wirc_data) : QFrame × FitsHeader :=
  match s.dark_fn with
  | some fn =>
    let master_dark := env fn
    let factor := wircDarkScaleFactor master_dark.exptime s.header.exptime
    (fun i j => s.full_image i j - factor * master_dark.data i j,
     (s.header.addHistory
        ("Subtracting " ++ fn ++ " from each flat file")).setCard "DARK_FN" fn)
  | none => (s.full_image, s.header)

/-- Flat-division step of `wirc_data.calibrate` (lines 129–143): when a
flat filename is set, the image is divided by the master flat and the
header records the operation. Float division is embedded as exact rational
division (a zero flat pixel, inf in numpy, is out of the claims' scope). -/
def wirc_data.flatStep (env : FileEnv) (fn : Option String)
    (p : QFrame × FitsHeader) : QFrame × FitsHeader :=
  match fn with
  | some f =>
    (fun i j => p.1 i j / (env f).data i j,
     (p.2.addHistory ("Dividing each file by " ++ f)).setCard "FLAT_FN" f)
  | none => p

/-- Background-subtraction step of `wirc_data.calibrate` (lines 146–161):
when a background filename is set, the background (dark-subtracted with the
same factor when a dark is configured) is scaled by the ratio of image and
background medians and subtracted. The `h`/`w` arguments are the image
dimensions over which `np.nanmedian` flattens. -/
def wirc_data.bkgStep (h w : Nat) (env : FileEnv) (s : wirc_data)
    (p : QFrame × FitsHeader) : QFrame × FitsHeader :=
  match s.bkg_fn with
  | some fn =>
    let background0 := (env fn).data
    let background : QFrame :=
      match s.dark_fn with
      | some dfn =>
        let master_dark := env dfn
        let factor := wircDarkScaleFactor master_dark.exptime s.header.exptime
        fun i j => background0 i j - factor * master_dark.data i j
      | none => background0
    let scale_bkg :=
      npMedianList (pixelList h w p.1) / npMedianList (pixelList h w background)
    (fun i j => p.1 i j - scale_bkg * background i j,
     (p.2.addHistory ("Subtracted background frame " ++ fn)).setCard "BKG_FN" fn)
  | none => p

/-- Bad-pixel step of `wirc_data.calibrate` (lines 163–187): when a
bad-pixel-map filename is set, the Python local `redux` is bound only
inside the `clean_bad_pix` and `mask_bad_pixels` branches (the mask branch
reads `self.full_image`, the image produced by the previous steps, not the
cleaned `redux`), and the subsequent unconditional `self.full_image =
redux` raises `NameError` when neither flag was set. -/
def wirc_data.bpStep (h w : Nat) (env : FileEnv)
    (clean_bad_pix mask_bad_pixels : Bool) (fn : Option String)
    (p : QFrame × FitsHeader) : Except CalErr (QFrame × FitsHeader) :=
  match fn with
  | none => Except.ok p
  | some f =>
    let bad_pixel_map_bool : Nat → Nat → Bool :=
      fun i j => decide ((env f).data i j ≠ 0)
    let redux : Option QFrame := none
    let redux := if clean_bad_pix then some (cleanBadPix h w p.1 bad_pixel_map_bool 5)
                 else redux
    let hdr := if clean_bad_pix then
                 (p.2.addHistory
                   ("Cleaned all bad pixels found in " ++ f ++
                    " using a median filter")).setCard "CLEAN_BP" "True"
               else p.2
    let redux := if mask_bad_pixels then
                   some (fun i j => p.1 i j * boolToQ (!bad_pixel_map_bool i j))
                 else redux
    let hdr := if mask_bad_pixels then
                 (hdr.addHistory ("Masking all bad pixels found in " ++ f)).setCard
                   "BP_FN" f
               else hdr
    match redux with
    | some r => Except.ok (r, hdr)
    | none => Except.error (CalErr.nameError "redux")

/-- `np.nan_to_num`: the identity on the NaN-free rational embedding. -/
def npNanToNum (im : QFrame) : QFrame := fun i j => im i j

/-- `wirc_data.calibrate(clean_bad_pix, replace_nans, mask_bad_pixels)`
(wirc_object.py lines 95–199): guarded on the `calibrated` flag — an
already-calibrated frame is returned untouched with only a printed
"Data already calibrated" message — otherwise dark subtraction, flat
division, background subtraction, bad-pixel handling and NaN replacement
run in order and the `calibrated` flag is set last. -/
def wirc_data.calibrate (h w : Nat) (env : FileEnv)
    (clean_bad_pix replace_nans mask_bad_pixels : Bool) (s : wirc_data) :
    Except CalErr wirc_data :=
  if s.calibrated then
    Except.ok s
  else
    let p1 := wirc_data.darkStep env s
    let p2 := wirc_data.flatStep env s.flat_fn p1
    let p3 := wirc_data.bkgStep h w env s p2
    match wirc_data.bpStep h w env clean_bad_pix mask_bad_pixels s.bp_fn p3 with
    | Except.error e => Except.error e
    | Except.ok p4 =>
      let img := if replace_nans then npNanToNum p4.1 else p4.1
      Except.ok { s with full_image := img, header := p4.2, calibrated := true }

/-- C1: `wirc_data.calibrate` is idempotent-guarded. Any successful call
marks the object calibrated, so a second call (with any flag combination
and any file environment) returns the object unchanged — pixel array,
header and metadata — and when the object was already calibrated the first
call itself was a no-op. -/
theorem wirc_data.calibrate_idempotent_guard
    (h w h2 w2 : Nat) (env env2 : FileEnv)
    (cb rn mb cb2 rn2 mb2 : Bool) (s s2 : wirc_data)
    (hcal : wirc_data.calibrate h w env cb rn mb s = Except.ok s2) :
    wirc_data.calibrate h2 w2 env2 cb2 rn2 mb2 s2 = Except.ok s2
    ∧ (s.calibrated = true → s2 = s) := by
  by_cases hc : s.calibrated
  · unfold wirc_data.calibrate at hcal
    rw [if_pos hc] at hcal
    obtain rfl : s = s2 := by injection hcal
    constructor
    · unfold wirc_data.calibrate
      rw [if_pos hc]
    · intro _; rfl
  · unfold wirc_data.calibrate at hcal
    rw [if_neg hc] at hcal
    dsimp only at hcal
    rcases hbp : wirc_data.bpStep h w env cb mb s.bp_fn
        (wirc_data.bkgStep h w env s
          (wirc_data.flatStep env s.flat_fn (wirc_data.darkStep env s))) with e | p4
    · rw [hbp] at hcal; exact absurd hcal (by simp)
    · rw [hbp] at hcal
      obtain rfl : ({ s with
          full_image := if rn then npNanToNum p4.1 else p4.1,
          header := p4.2, calibrated := true } : wirc_data) = s2 := by
        injection hcal
      constructor
      · unfold wirc_data.calibrate
        rw [if_pos rfl]
      · intro habs; exact absurd habs (by simp [hc])

/-- A file environment for the C1/C10 witnesses: every file reads as a
constant 1-valued frame with exposure time 1. -/
def envConst : FileEnv := fun _ => { data := fun _ _ => 1, exptime := 1 }

/-- A 2 × 2 already-calibrated `wirc_data` state for the C1 witness. -/
def c1State : wirc_data :=
  { full_image := fun _ _ => 7
    header := { exptime := 1, history := ["raw"], cards := [] }
    calibrated := true
    bkg_subbed := false
    dark_fn := some "dark.fits"
    flat_fn := some "flat.fits"
    bkg_fn := none
    bp_fn := some "bp.fits" }

/-- Witness for C1: calibrating the already-calibrated `c1State` succeeds
and returns it unchanged, and a further call is again the identity. -/
theorem wirc_data.calibrate_idempotent_guard_witness :
    wirc_data.calibrate 2 2 envConst false true false c1State = Except.ok c1State
    ∧ c1State = c1State :=
  (wirc_data.calibrate_idempotent_guard 2 2 2 2 envConst envConst
      true true false false true false c1State c1State rfl).imp
    (fun h => h) (fun h => h rfl)

/-- C10: on an uncalibrated frame with a bad-pixel-map filename set,
calling `calibrate` with `clean_bad_pix = False` and
`mask_bad_pixels = False` hits the unbound Python local `redux` at
`self.full_image = redux` — a `NameError` — so calibration never completes
and the `calibrated` flag is never set. -/
theorem wirc_data.calibrate_unbound_redux
    (h w : Nat) (env : FileEnv) (rn : Bool) (s : wirc_data) (f : String)
    (hcal : s.calibrated = false) (hbp : s.bp_fn = some f) :
    wirc_data.calibrate h w env false rn false s =
      Except.error (CalErr.nameError "redux") := by
  unfold wirc_data.calibrate
  rw [if_neg (by simp [hcal])]
  rw [hbp]
  rfl

/-- A 2 × 2 uncalibrated `wirc_data` state with a bad-pixel map set, for
the C10 witness. -/
def c10State : wirc_data :=
  { full_image := fun _ _ => 7
    header := { exptime := 1, history := [], cards := [] }
    calibrated := false
    bkg_subbed := false
    dark_fn := some "dark.fits"
    flat_fn := some "flat.fits"
    bkg_fn := none
    bp_fn := some "bp.fits" }

/-- Witness for C10: the concrete uncalibrated state with a bad-pixel map
raises the `redux` NameError when both bad-pixel flags are off. -/
theorem wirc_data.calibrate_unbound_redux_witness :
    wirc_data.calibrate 2 2 envConst false true false c10State =
      Except.error (CalErr.nameError "redux") :=
  wirc_data.calibrate_unbound_redux 2 2 envConst true c10State "bp.fits" rfl rfl

/-- `np.where(locations[:,1] == 'slitless')[0]`: the indices of the
sources whose slit assignment is the string `"slitless"` (slit positions
0, 1, 2 are other values of the same column). -/
def whereSlitless (locations : List ((ℚ × ℚ) × String)) : List Nat :=
  (List.range locations.length).filter
    (fun j => decide ((locations.getD j ((0, 0), "")).2 = "slitless"))

/-- `dx = np.mean(offsets[i, where_slitless, 0])` in
`register_and_combine_raw`: the mean over the slitless sources of the
per-source x offsets of frame `i` (the offset table entries are
`(x, y, xerr, yerr)` as returned by `chi2_shift`); NaN (`none`) when no
source is slitless. -/
def frameDx (locations : List ((ℚ × ℚ) × String))
    (offsets : Nat → Nat → ℚ × ℚ × ℚ × ℚ) (i : Nat) : Option ℚ :=
  npMean ((whereSlitless locations).map (fun j => (offsets i j).1))

/-- `dy = np.mean(offsets[i, where_slitless, 1]) - 0.5` in
`register_and_combine_raw`: the mean y offset over the slitless sources
minus the empirical 0.5-pixel correction. -/
def frameDy (locations : List ((ℚ × ℚ) × String))
    (offsets : Nat → Nat → ℚ × ℚ × ℚ × ℚ) (i : Nat) : Option ℚ :=
  (npMean ((whereSlitless locations).map (fun j => (offsets i j).2.1))).map
    (fun m => m - 1/2)

/-- The `(dx, dy)` pairs appended to `dx_list`/`dy_list` for frames
`0 .. n_images - 1` (the loop `for i in np.arange(0, n_images)` includes
frame 0). -/
def registerOffsets (locations : List ((ℚ × ℚ) × String))
    (offsets : Nat → Nat → ℚ × ℚ × ℚ × ℚ) (n_images : Nat) :
    List (Option ℚ × Option ℚ) :=
  (List.range n_images).map
    (fun i => (frameDx locations offsets i, frameDy locations offsets i))

/-- `scipy.ndimage.shift(image, [-dy, -dx], order=4)` as used on each
frame of the stack: `shiftFn` stands for the order-4 spline resampler at
finite shifts. A NaN component in the shift makes every output
coordinate's input coordinate NaN, which fails the in-bounds test of the
default `mode='constant'`, so every output pixel takes the constant fill
`cval = 0.0`: the aligned frame comes back filled with zeros. -/
def scipyShift (shiftFn : QFrame → ℚ → ℚ → QFrame) (im : QFrame) :
    Option ℚ × Option ℚ → OFrame
  | (some dx, some dy) => fun p q => some (shiftFn im (-dy) (-dx) p q)
  | _ => fun _ _ => some 0

/-- The resampled stack `spec_stack[i] = shift(spec_stack[i], [-dy,-dx],
order=4)` of `register_and_combine_raw`, one aligned frame per input
frame. -/
def alignedStack (shiftFn : QFrame → ℚ → ℚ → QFrame)
    (locations : List ((ℚ × ℚ) × String))
    (offsets : Nat → Nat → ℚ × ℚ × ℚ × ℚ) (spec_stack : List QFrame) :
    List OFrame :=
  (List.range spec_stack.length).map (fun i =>
    scipyShift shiftFn (spec_stack.getD i (fun _ _ => 0))
      (frameDx locations offsets i, frameDy locations offsets i))

/-- `np.concatenate((c[0], c[1], c[2], c[3]), axis=1)` for four `L × L`
trace cutouts of one source: the horizontal mosaic of width `4L`. -/
def horizStack4 (L : Nat) (c : Fin 4 → QFrame) : QFrame :=
  fun i j =>
    if j < L then c 0 i j
    else if j < 2 * L then c 1 i (j - L)
    else if j < 3 * L then c 2 i (j - 2 * L)
    else c 3 i (j - 3 * L)

/-- The mosaic prepared for correlation in `get_relative_image_offsets`:
the horizontal stack of the four traces, median-filtered with window 5 to
suppress outlying pixels. -/
def traceMosaic (L : Nat) (c : Fin 4 → QFrame) : QFrame :=
  medianFilterFn L (4 * L) 5 (horizStack4 L c)

/-- `get_relative_image_offsets(cutouts)`: stacks of the first frame are
correlated against the stack of every frame `i` in `np.arange(0, nfiles)`
— the first frame included as a sanity check — for every source `j`;
`corr` stands for the external `image_registration.chi2_shift`
correlator, returning `(x, y, xerr, yerr)`. -/
def getRelativeImageOffsets (corr : QFrame → QFrame → ℚ × ℚ × ℚ × ℚ)
    (L : Nat) (cutouts : List (List (Fin 4 → QFrame))) :
    List (List (ℚ × ℚ × ℚ × ℚ)) :=
  let defaultCutout : Fin 4 → QFrame := fun _ _ _ => 0
  let im0_stacks := (cutouts.getD 0 []).map (fun c => traceMosaic L c)
  (List.range cutouts.length).map (fun i =>
    (List.range (cutouts.getD 0 []).length).map (fun j =>
      corr (im0_stacks.getD j (traceMosaic L defaultCutout))
        (traceMosaic L ((cutouts.getD i []).getD j defaultCutout))))

/-- `np.nansum` across the stack axis at one pixel: NaNs count as zero,
so the result is never NaN. -/
def npNansum (xs : List (Option ℚ)) : Option ℚ :=
  some ((xs.filterMap id).sum)

/-- `np.nanmedian` across the stack axis at one pixel: the median of the
non-NaN values, NaN when all are NaN. -/
def npNanmedian (xs : List (Option ℚ)) : Option ℚ :=
  let vals := xs.filterMap id
  if vals.isEmpty then none else some (npMedianList vals)

/-- `np.nanmean` across the stack axis at one pixel: the mean of the
non-NaN values, NaN when all are NaN. -/
def npNanmean (xs : List (Option ℚ)) : Option ℚ :=
  let vals := xs.filterMap id
  if vals.isEmpty then none else some (vals.sum / (vals.length : ℚ))

/-- The final collapse of `register_and_combine_raw` (lines 583–592):
per-pixel `nansum` / `nanmedian` / `nanmean` for the three recognized
method strings, and for any other string a printed warning
(`... is not an option. Use median instead.`) followed by `nanmedian`. -/
def combineStack (combine : String) (spec_stack : List OFrame) : OFrame :=
  if combine = "sum" then fun i j => npNansum (spec_stack.map (fun f => f i j))
  else if combine = "median" then
    fun i j => npNanmedian (spec_stack.map (fun f => f i j))
  else if combine = "mean" then
    fun i j => npNanmean (spec_stack.map (fun f => f i j))
  else fun i j => npNanmedian (spec_stack.map (fun f => f i j))

/-- `getD` of a mapped range at an in-range index. -/
theorem getD_range_map {α : Type} (g : Nat → α) (n i : Nat) (d : α)
    (h : i < n) : ((List.range n).map g).getD i d = g i := by
  simp [List.getD_eq_getElem?_getD, List.getElem?_map, List.getElem?_range, h]

/-- `getD` commutes with `map` when the default is the image of a
default. -/
theorem getD_map {α β : Type} (f : α → β) (l : List α) (n : Nat) (d : α) :
    (l.map f).getD n (f d) = f (l.getD n d) := by
  simp [List.getD_eq_getElem?_getD, List.getElem?_map]

/-- C3: the offset applied to frame `i` when resampling is exactly the
mean of the per-source dx over the slitless sources and the mean of the
per-source dy over those same sources minus 0.5; offsets of sources
assigned to slits 0, 1 or 2 never contribute (changing them leaves the
aligned frame unchanged); and the offset table of
`get_relative_image_offsets` has an entry for every frame including frame
0, whose entries correlate the first frame's mosaics against themselves. -/
theorem register_slitless_mean_offsets
    (shiftFn : QFrame → ℚ → ℚ → QFrame)
    (locations : List ((ℚ × ℚ) × String))
    (offsets offsets2 : Nat → Nat → ℚ × ℚ × ℚ × ℚ)
    (corr : QFrame → QFrame → ℚ × ℚ × ℚ × ℚ) (L : Nat)
    (cutouts : List (List (Fin 4 → QFrame)))
    (spec_stack : List QFrame) (i j : Nat)
    (hi : i < spec_stack.length)
    (hsl : whereSlitless locations ≠ [])
    (hagree : ∀ k ∈ whereSlitless locations, offsets2 i k = offsets i k)
    (hcut : 0 < cutouts.length)
    (hj : j < (cutouts.getD 0 []).length) :
    (registerOffsets locations offsets spec_stack.length).getD i (none, none)
      = (some (((whereSlitless locations).map (fun k => (offsets i k).1)).sum
                / ((whereSlitless locations).length : ℚ)),
         some (((whereSlitless locations).map (fun k => (offsets i k).2.1)).sum
                / ((whereSlitless locations).length : ℚ) - 1/2))
    ∧ (alignedStack shiftFn locations offsets spec_stack).getD i (fun _ _ => none)
      = (fun p q => some (shiftFn (spec_stack.getD i (fun _ _ => 0))
          (-(((whereSlitless locations).map (fun k => (offsets i k).2.1)).sum
              / ((whereSlitless locations).length : ℚ) - 1/2))
          (-(((whereSlitless locations).map (fun k => (offsets i k).1)).sum
              / ((whereSlitless locations).length : ℚ))) p q))
    ∧ (alignedStack shiftFn locations offsets2 spec_stack).getD i (fun _ _ => none)
      = (alignedStack shiftFn locations offsets spec_stack).getD i (fun _ _ => none)
    ∧ (getRelativeImageOffsets corr L cutouts).length = cutouts.length
    ∧ ((getRelativeImageOffsets corr L cutouts).getD 0 []).getD j (0, 0, 0, 0)
      = corr (traceMosaic L ((cutouts.getD 0 []).getD j (fun _ _ _ => 0)))
             (traceMosaic L ((cutouts.getD 0 []).getD j (fun _ _ _ => 0))) := by
  have hne : ((whereSlitless locations).map
      (fun k => (offsets i k).1)).isEmpty = false := by
    simp [List.isEmpty_iff, hsl]
  have hne2 : ((whereSlitless locations).map
      (fun k => (offsets i k).2.1)).isEmpty = false := by
    simp [List.isEmpty_iff, hsl]
  have hdx : frameDx locations offsets i
      = some (((whereSlitless locations).map (fun k => (offsets i k).1)).sum
          / ((whereSlitless locations).length : ℚ)) := by
    simp [frameDx, npMean, hne]
  have hdy : frameDy locations offsets i
      = some (((whereSlitless locations).map (fun k => (offsets i k).2.1)).sum
          / ((whereSlitless locations).length : ℚ) - 1/2) := by
    simp [frameDy, npMean, hne2]
  refine ⟨?_, ?_, ?_, ?_, ?_⟩
  · rw [registerOffsets, getD_range_map _ _ _ _ hi, hdx, hdy]
  · rw [alignedStack, getD_range_map _ _ _ _ hi, hdx, hdy]
    rfl
  · have hdx2 : frameDx locations offsets2 i = frameDx locations offsets i := by
      unfold frameDx
      rw [List.map_congr_left (fun k hk => congrArg (fun p => p.1) (hagree k hk))]
    have hdy2 : frameDy locations offsets2 i = frameDy locations offsets i := by
      unfold frameDy
      rw [List.map_congr_left (fun k hk => congrArg (fun p => p.2.1) (hagree k hk))]
    rw [alignedStack, alignedStack, getD_range_map _ _ _ _ hi,
      getD_range_map _ _ _ _ hi, hdx2, hdy2]
  · simp [getRelativeImageOffsets]
  · rw [getRelativeImageOffsets]
    rw [getD_range_map _ _ _ _ hcut, getD_range_map _ _ _ _ hj]
    rw [getD_map (fun c => traceMosaic L c) (cutouts.getD 0 []) j (fun _ _ _ => 0)]

/-- Identity stand-in for the spline resampler in concrete instances. -/
def shiftFnId : QFrame → ℚ → ℚ → QFrame := fun im _ _ => im

/-- One slitless source and one slit-0 source, for the C3 witness. -/
def c3Locs : List ((ℚ × ℚ) × String) := [((0, 0), "slitless"), ((0, 0), "0")]

/-- Constant offset table `(2, 3, 0, 0)` for the C3 witness. -/
def c3Offsets : Nat → Nat → ℚ × ℚ × ℚ × ℚ := fun _ _ => (2, 3, 0, 0)

/-- A trivial correlator for the C3 witness. -/
def c3Corr : QFrame → QFrame → ℚ × ℚ × ℚ × ℚ := fun _ _ => (0, 0, 0, 0)

/-- A single-frame, single-source cutout set for the C3 witness. -/
def c3Cutouts : List (List (Fin 4 → QFrame)) := [[fun _ _ _ => 1]]

/-- A single-frame stack for the C3 witness. -/
def c3Stack : List QFrame := [fun _ _ => 4]

/-- Witness for C3 on one slitless source with offsets `(2, 3)`: the
applied offset is `(2, 3 - 0.5)` and the offset table has one row. -/
theorem register_slitless_mean_offsets_witness :
    (registerOffsets c3Locs c3Offsets 1).getD 0 (none, none)
      = (some 2, some (5/2))
    ∧ (getRelativeImageOffsets c3Corr 1 c3Cutouts).length = 1 := by
  have h := register_slitless_mean_offsets shiftFnId c3Locs c3Offsets c3Offsets
    c3Corr 1 c3Cutouts c3Stack 0 0 (by decide) (by decide) (fun k _ => rfl)
    (by decide) (by decide)
  exact ⟨h.1.trans (by decide), h.2.2.2.1⟩

/-- Two sources, both in slits (none slitless), for C7. -/
def c7Locs : List ((ℚ × ℚ) × String) := [((0, 0), "0"), ((0, 0), "1")]

/-- Constant offset table `(7, 9, 0, 0)` for C7. -/
def c7Offsets : Nat → Nat → ℚ × ℚ × ℚ × ℚ := fun _ _ => (7, 9, 0, 0)

/-- A single-frame stack of constant 5 for C7. -/
def c7Stack : List QFrame := [fun _ _ => 5]

/-- C7 counterexample: with no slitless source the averaged offset is NaN
(`(none, none)`), and `register_and_combine_raw` neither reports a failure
nor skips the resampling: the NaN shift sends every output pixel of the
input frame (constant 5 here) to the constant fill 0.0, so a silently
zero-filled frame — exactly the "zero shift"-like outcome the claim rules
out — enters the combination. -/
theorem register_noSlitless_counterexample :
    registerOffsets c7Locs c7Offsets 1 = [(none, none)]
    ∧ (alignedStack shiftFnId c7Locs c7Offsets c7Stack).getD 0
        (fun _ _ => none) 0 0 = some 0 := by
  exact ⟨by decide, rfl⟩

/-- C7 (amended): when no source is flagged slitless, the per-frame
averaged offset is NaN (numpy only emits a runtime warning for the empty
mean), and the resampling step applies it anyway: the NaN coordinates fail
scipy shift's in-bounds test, so the aligned frame comes back entirely
filled with `cval = 0.0` — a silently zeroed frame, with no failure value
anywhere in the result. -/
theorem register_noSlitless_silent_zero_fill
    (shiftFn : QFrame → ℚ → ℚ → QFrame)
    (locations : List ((ℚ × ℚ) × String))
    (offsets : Nat → Nat → ℚ × ℚ × ℚ × ℚ)
    (spec_stack : List QFrame) (i : Nat)
    (hsl : whereSlitless locations = [])
    (hi : i < spec_stack.length) :
    (registerOffsets locations offsets spec_stack.length).getD i
        (some 0, some 0) = (none, none)
    ∧ (alignedStack shiftFn locations offsets spec_stack).getD i
        (fun _ _ => none) = (fun _ _ => some 0) := by
  have hdx : frameDx locations offsets i = none := by
    simp [frameDx, hsl, npMean]
  have hdy : frameDy locations offsets i = none := by
    simp [frameDy, hsl, npMean]
  constructor
  · rw [registerOffsets, getD_range_map _ _ _ _ hi, hdx, hdy]
  · rw [alignedStack, getD_range_map _ _ _ _ hi, hdx, hdy]
    rfl

/-- Witness for the amended C7 on the concrete no-slitless input. -/
theorem register_noSlitless_silent_zero_fill_witness :
    (registerOffsets c7Locs c7Offsets 1).getD 0 (some 0, some 0)
      = (none, none)
    ∧ (alignedStack shiftFnId c7Locs c7Offsets c7Stack).getD 0
        (fun _ _ => none) = (fun _ _ => some 0) :=
  register_noSlitless_silent_zero_fill shiftFnId c7Locs c7Offsets c7Stack 0
    (by decide) (by decide)

/-- Three frames with per-pixel values 1, 2 and 3, for C8. -/
def c8Stack : List OFrame :=
  [fun _ _ => some 1, fun _ _ => some 2, fun _ _ => some 3]

/-- C8: `register_and_combine_raw` collapses the aligned stack per pixel
with `nansum` for `combine='sum'`, `nanmedian` for `'median'`, `nanmean`
for `'mean'` — three frames of values 1, 2, 3 give 6, 2 and 2 — and every
other method string falls back to `nanmedian` (after a printed warning)
rather than raising. -/
theorem combineStack_methods :
    (∀ (m : String) (stack : List OFrame), m ≠ "sum" → m ≠ "median" →
      m ≠ "mean" → combineStack m stack = combineStack "median" stack)
    ∧ (∀ i j, combineStack "sum" c8Stack i j = some 6
        ∧ combineStack "median" c8Stack i j = some 2
        ∧ combineStack "mean" c8Stack i j = some 2) := by
  constructor
  · intro m stack h1 h2 h3
    simp [combineStack, h1, h2, h3]
  · intro i j
    refine ⟨?_, ?_, ?_⟩
    · show some ((1 : ℚ) + (2 + (3 + 0))) = some 6
      norm_num
    · show some (npMedianList [1, 2, 3]) = some 2
      norm_num [npMedianList, sortQ, List.insertionSort, List.orderedInsert]
    · show some (((1 : ℚ) + (2 + (3 + 0))) / (3 : ℚ)) = some 2
      norm_num

/-- Witness for C8: the unrecognized method string `"average"` falls back
to the median combine, and the concrete sums agree. -/
theorem combineStack_methods_witness :
    combineStack "average" c8Stack = combineStack "median" c8Stack
    ∧ combineStack "sum" c8Stack 0 0 = some 6 :=
  ⟨combineStack_methods.1 "average" c8Stack (by decide) (by decide) (by decide),
   (combineStack_methods.2 0 0).1⟩

/-- The loop body of the batch `calibration.calibrate` for one science
frame (lines 238–279): dark subtraction scaled by `calibrateScaleFactor`,
flat division, an unconditional multiplication by the negated bad-pixel
mask, optional background subtraction, optional `cleanBadPix`, optional
masking, optional NaN replacement. -/
def calibrateFrame (h w : Nat) (master_dark master_flat : QFrame)
    (bad_pixel_map_bool : Nat → Nat → Bool) (background : Option QFrame)
    (mask_bad_pixels clean_Bad_Pix replace_nans : Bool)
    (dark_exp_time science_exp_time : ℚ) (data : QFrame) : QFrame :=
  let factor := calibrateScaleFactor dark_exp_time science_exp_time
  let redux : QFrame :=
    fun i j => (data i j - factor * master_dark i j) / master_flat i j
  let redux : QFrame := fun i j => redux i j * boolToQ (!bad_pixel_map_bool i j)
  let redux : QFrame :=
    match background with
    | some b => fun i j => redux i j - b i j
    | none => redux
  let redux := if clean_Bad_Pix then cleanBadPix h w redux bad_pixel_map_bool 5
               else redux
  let redux := if mask_bad_pixels then
                 (fun i j => redux i j * boolToQ (!bad_pixel_map_bool i j))
               else redux
  let redux := if replace_nans then npNanToNum redux else redux
  redux

/-- A source's `trace_spectra` array of shape `[4, 3, m]`: per trace, the
wavelength, flux and flux-error rows. -/
abbrev TraceSpectra : Type := Fin 4 → Fin 3 → List ℚ

/-- `wirc_data.make_triplet_table` on the 3-dimensional `trace_spectra`
(branch `array_in.ndim == 3`): the table for trace `t` (the extra index
parsed from the column name) holds the columns
`array_in[t,0,:], array_in[t,1,:], array_in[t,2,:]`. -/
def make_triplet_columns (ts : TraceSpectra) (t : Fin 4) : List (List ℚ) :=
  [ts t 0, ts t 1, ts t 2]

/-- The length list returned by `make_triplet_table`:
`[len(c1.array), len(c2.array), len(c2.array)]` — the source reads `c2`
twice, so the third entry is the second column's length. -/
def make_triplet_lengths (ts : TraceSpectra) (t : Fin 4) : List Nat :=
  [(ts t 0).length, (ts t 1).length, (ts t 1).length]

/-- The twelve trace-spectra columns of the per-source table written by
`save_wirc_object`: `t_ts_0.columns + t_ts_1.columns + t_ts_2.columns +
t_ts_3.columns`. -/
def saveTraceColumns (ts : TraceSpectra) : List (List ℚ) :=
  make_triplet_columns ts 0 ++ make_triplet_columns ts 1
    ++ make_triplet_columns ts 2 ++ make_triplet_columns ts 3

/-- The `TLENG1..TLENG12` header values written by `save_wirc_object`
(`length_list = l0+l1+l2+l3`). -/
def saveTraceLengths (ts : TraceSpectra) : List Nat :=
  make_triplet_lengths ts 0 ++ make_triplet_lengths ts 1
    ++ make_triplet_lengths ts 2 ++ make_triplet_lengths ts 3

/-- `wirc_data.table_columns_to_array(table_in, prihdr, cil)` in its
12-column branch: each selected column is truncated to its recorded
`TLENG`, four 3-row arrays `array_a .. array_d` are stacked from
consecutive column triples, and the output is
`np.stack((array_a, array_b, array_c, array_c))` — `array_d`, built from
columns 9–11, is never used. -/
def table_columns_to_array12 (cols : List (List ℚ)) (tleng : List Nat)
    (cil : List Nat) : List (List (List ℚ)) :=
  let field : Nat → List ℚ := fun k => (cols.getD k []).take (tleng.getD k 0)
  let list3columns := cil.map field
  let array_a := [list3columns.getD 0 [], list3columns.getD 1 [],
                  list3columns.getD 2 []]
  let array_b := [list3columns.getD 3 [], list3columns.getD 4 [],
                  list3columns.getD 5 []]
  let array_c := [list3columns.getD 6 [], list3columns.getD 7 [],
                  list3columns.getD 8 []]
  let _array_d := [list3columns.getD 9 [], list3columns.getD 10 [],
                   list3columns.getD 11 []]
  [array_a, array_b, array_c, array_c]

/-- The save-then-load round trip of one source's `trace_spectra`: the
columns and TLENG headers written by `save_wirc_object`, read back by
`load_wirc_object` through `table_columns_to_array` with column index
list `[0..11]`. -/
def load_trace_spectra (ts : TraceSpectra) : List (List (List ℚ)) :=
  table_columns_to_array12 (saveTraceColumns ts) (saveTraceLengths ts)
    [0, 1, 2, 3, 4, 5, 6, 7, 8, 9, 10, 11]

/-- The saved `trace_spectra` tensor itself, stacked the same way, for
comparison with the loaded one. -/
def traceSpectraStack (ts : TraceSpectra) : List (List (List ℚ)) :=
  [[ts 0 0, ts 0 1, ts 0 2], [ts 1 0, ts 1 1, ts 1 2],
   [ts 2 0, ts 2 1, ts 2 2], [ts 3 0, ts 3 1, ts 3 2]]

/-- A `[4,3,1]` trace-spectra tensor with pairwise distinct entries
`10*t + c`, for C9. -/
def c9Spectra : TraceSpectra := fun t c => [((t.val : ℚ)) * 10 + (c.val : ℚ)]

/-- C9: the save/load round trip does not restore `trace_spectra` — the
fourth trace (index 3) comes back equal to the third trace's saved
columns, because `table_columns_to_array` stacks `array_c` twice and
discards `array_d`. -/
theorem load_trace_spectra_duplicates_trace2 :
    load_trace_spectra c9Spectra
      = [[[0], [1], [2]], [[10], [11], [12]], [[20], [21], [22]],
         [[20], [21], [22]]]
    ∧ load_trace_spectra c9Spectra ≠ traceSpectraStack c9Spectra
    ∧ (load_trace_spectra c9Spectra).getD 3 []
        = (traceSpectraStack c9Spectra).getD 2 [] := by
  refine ⟨by decide, by decide, by decide⟩

end WircDrp
